import Mathlib

/-!
Shallow embedding of `src/index.tsx` of react-inlinesvg: the `InlineSVG`
component's load/cache/request pipeline, its SVG attribute-uniquification
transformer, and its error classification.  Stateful component code is
embedded as explicit state passing over a `Sys` record; the process-wide
`cacheStore` object is an association list; the DOM tree is an explicit
`SVGNode` inductive; the external collaborators (`fetch`, `react-from-dom`'s
`convert`, environment detection) are parameters of an `Env` record.
JavaScript regular-expression operations used by the source are embedded as
explicit character-list scanners with the same matching semantics.
-/

namespace InlineSVG

/- The `STATUS` constant object from the source. -/
namespace STATUS

def FAILED : String := "failed"

def LOADED : String := "loaded"

def LOADING : String := "loading"

def PENDING : String := "pending"

def READY : String := "ready"

def UNSUPPORTED : String := "unsupported"

end STATUS

/-! ## String scanning utilities (embedding the JS regex/indexOf operations) -/

/-- `pat` is a prefix of `s` (character lists). -/
def startsWithChars : List Char → List Char → Bool
  | [], _ => true
  | _ :: _, [] => false
  | p :: ps, c :: cs => p = c && startsWithChars ps cs

/-- First occurrence of `pat` inside `s`: returns the characters before the
occurrence and the characters after it.  Models first-match search of a
literal, as a JS regex engine performs advancing one position at a time. -/
def findSub (pat : List Char) : List Char → Option (List Char × List Char)
  | [] => if pat.isEmpty then some ([], []) else none
  | c :: cs =>
    if startsWithChars pat (c :: cs) then some ([], (c :: cs).drop pat.length)
    else
      match findSub pat cs with
      | some (pre, post) => some (c :: pre, post)
      | none => none

/-- Embeds `src.indexOf(pat) >= 0`. -/
def containsSubstr (s pat : String) : Bool :=
  (findSub pat.data s.data).isSome

/-- Characters up to the first `')'` (the lazily matched group of
`/url\((.*?)\)/`); fails if a newline (which `.` cannot match) or the end of
the string is reached before a `')'`. -/
def grabGroup : List Char → Option (List Char)
  | [] => none
  | c :: cs =>
    if c = ')' then some []
    else if c = '\n' then none
    else (grabGroup cs).map (fun g => c :: g)

/-- Embeds `value.match(/url\((.*?)\)/)`: finds the first position where
`url(` is followed by a `)` on the same line; returns the text before the
whole match, the captured group `match[1]`, and the text after the match. -/
def matchUrlAux : List Char → Option (List Char × List Char × List Char)
  | [] => none
  | c :: cs =>
    if startsWithChars ("url(".data) (c :: cs) then
      match grabGroup ((c :: cs).drop 4) with
      | some g => some ([], g, (c :: cs).drop (4 + g.length + 1))
      | none => (matchUrlAux cs).map (fun r => (c :: r.1, r.2.1, r.2.2))
    else (matchUrlAux cs).map (fun r => (c :: r.1, r.2.1, r.2.2))

def matchUrl (v : String) : Option (String × String × String) :=
  (matchUrlAux v.data).map (fun r => (String.mk r.1, String.mk r.2.1, String.mk r.2.2))

/-- Characters before the first `','` and the characters after it. -/
def splitFirstComma : List Char → Option (List Char × List Char)
  | [] => none
  | c :: cs =>
    if c = ',' then some ([], cs)
    else (splitFirstComma cs).map (fun r => (c :: r.1, r.2))

/-- Embeds `src.match(/data:image\/svg[^,]*?(;base64)?,(.*)/)`.  The lazy
`[^,]*?` together with the greedy-option `(;base64)?` commits at the first
comma after the literal `data:image/svg`; the `;base64` group is captured
exactly when the seven characters before that comma are `;base64`; `(.*)`
takes the remaining characters of the line.  Returns
`(match[1] was captured, match[2])`, or `none` when the regex fails. -/
def matchDataURI (src : String) : Option (Bool × String) :=
  match findSub ("data:image/svg".data) src.data with
  | none => none
  | some (_, rest) =>
    match splitFirstComma rest with
    | none => none
    | some (m, tail) =>
      let b64 := startsWithChars (";base64".data.reverse) m.reverse
      some (b64, String.mk (tail.takeWhile (fun ch => ch ≠ '\n' && ch ≠ '\r')))

/-! ## `atob` and `decodeURIComponent` collaborators -/

/-- Value of a base64 alphabet character. -/
def b64Val (c : Char) : Option Nat :=
  if 'A' ≤ c ∧ c ≤ 'Z' then some (c.toNat - 65)
  else if 'a' ≤ c ∧ c ≤ 'z' then some (c.toNat - 97 + 26)
  else if '0' ≤ c ∧ c ≤ '9' then some (c.toNat - 48 + 52)
  else if c = '+' then some 62
  else if c = '/' then some 63
  else none

/-- Base64 decoding of well-formed input, as the host's `atob` performs it
(`=` padding falls in the `none` cases); on malformed input the host throws
`InvalidCharacterError`, which no claim exercises — here decoding stops. -/
def atobChars : List Char → List Char
  | a :: b :: c :: d :: rest =>
    match b64Val a, b64Val b with
    | some va, some vb =>
      let o1 := Char.ofNat ((va * 4 + vb / 16) % 256)
      match b64Val c with
      | some vc =>
        let o2 := Char.ofNat ((vb % 16) * 16 + vc / 4)
        match b64Val d with
        | some vd => o1 :: o2 :: Char.ofNat ((vc % 4) * 64 + vd) :: atobChars rest
        | none => [o1, o2]
      | none => [o1]
    | _, _ => []
  | _ => []

def atob (s : String) : String := String.mk (atobChars s.data)

def hexVal (c : Char) : Option Nat :=
  if '0' ≤ c ∧ c ≤ '9' then some (c.toNat - 48)
  else if 'a' ≤ c ∧ c ≤ 'f' then some (c.toNat - 97 + 10)
  else if 'A' ≤ c ∧ c ≤ 'F' then some (c.toNat - 65 + 10)
  else none

/-- Percent-decoding, as the host's `decodeURIComponent` performs it on the
single-byte sequences all claims use (the host additionally reassembles
multi-byte UTF-8 sequences and throws `URIError` on malformed input, which
no claim exercises). -/
def percentDecode : List Char → List Char
  | [] => []
  | '%' :: a :: b :: rest =>
    match hexVal a, hexVal b with
    | some x, some y => Char.ofNat (16 * x + y) :: percentDecode rest
    | _, _ => '%' :: percentDecode (a :: b :: rest)
  | c :: rest => c :: percentDecode rest

def decodeURIComponent (s : String) : String := String.mk (percentDecode s.data)

/-! ## The DOM tree and `updateSVGAttributes` -/

/-- A DOM attribute node: `name`/`value`, as `updateSVGAttributes` reads and
writes them. -/
structure Attr where
  name : String
  value : String
deriving DecidableEq, Repr

/-- A DOM element as the component manipulates it: tag name (used by the
`querySelector('desc')`/`querySelector('title')` calls), text content (the
`innerHTML` written into injected `<desc>`/`<title>` elements), attribute
list and child elements. -/
inductive SVGNode where
  | mk (tag : String) (text : String) (attributes : List Attr) (children : List SVGNode)
deriving Repr

def SVGNode.tag : SVGNode → String
  | .mk t _ _ _ => t

def SVGNode.text : SVGNode → String
  | .mk _ x _ _ => x

def SVGNode.attributes : SVGNode → List Attr
  | .mk _ _ a _ => a

def SVGNode.children : SVGNode → List SVGNode
  | .mk _ _ _ c => c

def replaceableAttributes : List String := ["id", "href", "xlink:href", "xlink:role", "xlink:arcrole"]

def linkAttributes : List String := ["href", "xlink:href"]

/-- `isDataValue` from `updateSVGAttributes`:
`linkAttributes.indexOf(name) >= 0 && (value ? value.indexOf('#') < 0 : false)`
(`value.indexOf('#') < 0` is the character-level absence test, taken here
over the string's character list). -/
def isDataValue (name value : String) : Bool :=
  linkAttributes.contains name && (if value ≠ "" then !(value.data.contains '#') else false)

/-- The `url(...)` rewrite applied to every attribute of an element:
on a match with a non-empty (truthy) `match[1]`, `match[0]` is replaced by
`url(<baseURL><match[1]>__<hash>)` at the position of the match. -/
def urlRewriteAttr (baseURL hash : String) (a : Attr) : Attr :=
  match matchUrl a.value with
  | some (pre, g, post) =>
    if g ≠ "" then { a with value := pre ++ "url(" ++ baseURL ++ g ++ "__" ++ hash ++ ")" ++ post }
    else a
  | none => a

/-- Rewrite the value of the first attribute named `r` (the one
`attributes.find` returns). -/
def updateFirstAttr (r newValue : String) : List Attr → List Attr
  | [] => []
  | a :: rest =>
    if a.name = r then { a with value := newValue } :: rest
    else a :: updateFirstAttr r newValue rest

/-- One step of the `replaceableAttributes.forEach` loop: if an attribute
named `r` is present and `!isDataValue(r, attribute.value)`, append
`__<hash>` to its value. -/
def suffixAttr (hash r : String) (attrs : List Attr) : List Attr :=
  match attrs.find? (fun a => a.name = r) with
  | some a => if !isDataValue r a.value then updateFirstAttr r (a.value ++ "__" ++ hash) attrs else attrs
  | none => attrs

/-- The per-element attribute processing of `updateSVGAttributes`: first the
`url(...)` rewrite over all attributes, then the suffixing pass over
`replaceableAttributes` in order. -/
def processAttributes (baseURL hash : String) (attrs : List Attr) : List Attr :=
  let attrs := attrs.map (urlRewriteAttr baseURL hash)
  replaceableAttributes.foldl (fun acc r => suffixAttr hash r acc) attrs

/-- The `[...node.children].map((d) => ...)` body of `updateSVGAttributes`,
applied to a child list: each child's attributes are processed (when the
element has attributes), and children with children are descended into. -/
def updateChildren (baseURL hash : String) : List SVGNode → List SVGNode
  | [] => []
  | SVGNode.mk tg tx a cs :: ns =>
    let a2 := if a.length ≠ 0 then processAttributes baseURL hash a else a
    let d :=
      if cs.length ≠ 0 then SVGNode.mk tg tx a2 (updateChildren baseURL hash cs)
      else SVGNode.mk tg tx a2 cs
    d :: updateChildren baseURL hash ns

/-- `InlineSVG.updateSVGAttributes`: identity when `uniquifyIDs` is off,
otherwise rewrites every descendant's attributes (the root node's own
attributes are never touched). -/
def updateSVGAttributes (baseURL hash : String) (uniquifyIDs : Bool) (node : SVGNode) : SVGNode :=
  if !uniquifyIDs then node
  else
    match node with
    | .mk tg tx a cs => .mk tg tx a (updateChildren baseURL hash cs)

/-- Remove the first element with tag `t` in document (pre-order) position
from a child forest, as `querySelector(t)` + `removeChild` do; returns
whether an element was removed. -/
def removeFirstByTag (t : String) : List SVGNode → List SVGNode × Bool
  | [] => ([], false)
  | SVGNode.mk tg tx a cs :: ns =>
    if tg = t then (ns, true)
    else
      match removeFirstByTag t cs with
      | (cs2, true) => (SVGNode.mk tg tx a cs2 :: ns, true)
      | (_, false) =>
        match removeFirstByTag t ns with
        | (ns2, f) => (SVGNode.mk tg tx a cs :: ns2, f)

/-- The `description`/`title` injection of `getNode`: remove any existing
element with the given tag and prepend a fresh one holding the given text. -/
def prependReplacing (t txt : String) (svg : SVGNode) : SVGNode :=
  match svg with
  | .mk tg tx a cs =>
    let cs := (removeFirstByTag t cs).1
    .mk tg tx a (SVGNode.mk t txt [] [] :: cs)

/-! ## Component state, the shared cache store and the `InlineSVG` operations -/

/-- `IStorageItem`: a `cacheStore` entry. The source stores `this.handleLoad`
closures in `queue`; a closure is identified here by the number of the
consumer it belongs to. -/
structure IStorageItem where
  content : String
  queue : List Nat
  status : String
deriving DecidableEq, Repr

/-- The props a consumer was constructed with, with `this.hash` already
resolved (`props.uniqueHash || randomString(8)`, fixed for the consumer's
lifetime). -/
structure Props where
  baseURL : String := ""
  cacheRequests : Bool := true
  description : Option String := none
  preProcessor : Option (String → String) := none
  src : String
  title : Option String := none
  uniquifyIDs : Bool := false
  hash : String := "hash"

/-- A consumer's `this.state` (`IState`) together with its `this.isActive`
instance field. -/
structure InstState where
  content : String := ""
  element : Option SVGNode := none
  hasCache : Bool := false
  status : String := STATUS.PENDING
  isActive : Bool := false

/-- The external collaborators: each consumer's props, `convert(text,
{nodeOnly: true})` (`none` embeds both a null result and a node that is not
an `SVGSVGElement`), the validity of `convert(node)`'s React element, and
the two environment checks. -/
structure Env where
  props : Nat → Props
  parse : String → Option SVGNode
  elementOk : SVGNode → Bool
  canUseDOM : Bool := true
  isSupportedEnvironment : Bool := true

/-- The mutable world: the process-wide `cacheStore`, every consumer's
instance state, and observation logs — `fetch` calls issued, `handleLoad`
invocations, status `setState` writes, and `onError` notifications. -/
structure Sys where
  cacheStore : List (String × IStorageItem) := []
  insts : Nat → InstState
  fetchLog : List String := []
  calls : List (Nat × String) := []
  writes : List (Nat × String) := []
  errors : List (Nat × String) := []

def lookupStore (st : List (String × IStorageItem)) (k : String) : Option IStorageItem :=
  (st.find? (fun e => e.1 = k)).map (fun e => e.2)

/-- `cacheStore[k] = v`: replace the binding if present, else add it. -/
def updateStore : List (String × IStorageItem) → String → IStorageItem → List (String × IStorageItem)
  | [], k, v => [(k, v)]
  | e :: rest, k, v => if e.1 = k then (k, v) :: rest else e :: updateStore rest k v

/-- `delete cacheStore[k]`. -/
def deleteStore (st : List (String × IStorageItem)) (k : String) : List (String × IStorageItem) :=
  st.filter (fun e => e.1 ≠ k)

def setInst (c : Nat) (v : InstState) (s : Sys) : Sys :=
  { s with insts := fun i => if i = c then v else s.insts i }

/-- `InlineSVG.handleError`: classify by the error's message, and when the
consumer is still active commit the terminal status and then notify
`onError`. -/
def handleError (c : Nat) (message : String) (s : Sys) : Sys :=
  let status := if message = "Browser does not support SVG" then STATUS.UNSUPPORTED else STATUS.FAILED
  if (s.insts c).isActive then
    let s := setInst c { s.insts c with status := status } s
    let s := { s with writes := s.writes ++ [(c, status)] }
    { s with errors := s.errors ++ [(c, message)] }
  else s

/-- `InlineSVG.processSVG`: the consumer's raw content, through
`preProcessor` when configured. -/
def processSVG (env : Env) (c : Nat) (s : Sys) : String :=
  match (env.props c).preProcessor with
  | some f => f (s.insts c).content
  | none => (s.insts c).content

/-- `InlineSVG.getNode`: parse the processed text, reject a null/non-SVG
node through `handleError` (the catch makes the function return
`undefined`, embedded as `none`), otherwise uniquify attributes and inject
`description`/`title`. -/
def getNode (env : Env) (c : Nat) (s : Sys) : Sys × Option SVGNode :=
  let p := env.props c
  match env.parse (processSVG env c s) with
  | none => (handleError c "Could not convert the src to a DOM Node" s, none)
  | some node =>
    let svg := updateSVGAttributes p.baseURL p.hash p.uniquifyIDs node
    let svg := match p.description with
      | some d => prependReplacing "desc" d svg
      | none => svg
    let svg := match p.title with
      | some t => prependReplacing "title" t svg
      | none => svg
    (s, some svg)

/-- `InlineSVG.getElement`: convert the node from `getNode` to a React
element and commit READY, or route the failure through `handleError`.  When
`getNode` already failed it returned `undefined`, and `convert(undefined)`
yields no valid element, so the catch fires `handleError` a second time. -/
def getElement (env : Env) (c : Nat) (s : Sys) : Sys :=
  match getNode env c s with
  | (s, some node) =>
    if env.elementOk node then
      let s := setInst c { s.insts c with element := some node, status := STATUS.READY } s
      { s with writes := s.writes ++ [(c, STATUS.READY)] }
    else handleError c "Could not convert the src to a React element" s
  | (s, none) => handleError c "Could not convert the src to a React element" s

/-- `InlineSVG.handleLoad`: always invoked (logged in `calls`); when the
consumer is active it commits LOADED content and continues with
`getElement`. -/
def handleLoad (env : Env) (c : Nat) (content : String) (s : Sys) : Sys :=
  let s := { s with calls := s.calls ++ [(c, content)] }
  if (s.insts c).isActive then
    let s := setInst c { s.insts c with content := content, status := STATUS.LOADED } s
    let s := { s with writes := s.writes ++ [(c, STATUS.LOADED)] }
    getElement env c s
  else s

/-- `InlineSVG.request`: create the LOADING cache entry when caching is on,
then issue `fetch(src)` (logged in `fetchLog`; its completion is a separate
step, `fetchComplete`). -/
def request (env : Env) (c : Nat) (s : Sys) : Sys :=
  let p := env.props c
  let s :=
    if p.cacheRequests then
      { s with cacheStore := updateStore s.cacheStore p.src { content := "", queue := [], status := STATUS.LOADING } }
    else s
  { s with fetchLog := s.fetchLog ++ [p.src] }

/-- The body of the `setState` callback in `InlineSVG.load`: cache lookup,
data-URI decoding, inline-markup detection, falling back to `request`. -/
def loadCb (env : Env) (c : Nat) (s : Sys) : Sys :=
  let p := env.props c
  match (if p.cacheRequests then lookupStore s.cacheStore p.src else none) with
  | some cache =>
    if cache.status = STATUS.LOADING then
      { s with cacheStore := updateStore s.cacheStore p.src { cache with queue := cache.queue ++ [c] } }
    else if cache.status = STATUS.LOADED then handleLoad env c cache.content s
    else s
  | none =>
    let inlineSrc : Option String :=
      match matchDataURI p.src with
      | some m => some (if m.1 then atob m.2 else decodeURIComponent m.2)
      | none => if containsSubstr p.src "<svg" then some p.src else none
    match inlineSrc with
    | some t => if t ≠ "" then handleLoad env c t s else request env c s
    | none => request env c s

/-- `InlineSVG.load`: for an active consumer, reset the state to LOADING and
run the `setState` callback.  The callback runs to completion without a
suspension point, so it is a single atomic step here. -/
def load (env : Env) (c : Nat) (s : Sys) : Sys :=
  if (s.insts c).isActive then
    let s := setInst c { s.insts c with content := "", element := none, status := STATUS.LOADING } s
    let s := { s with writes := s.writes ++ [(c, STATUS.LOADING)] }
    loadCb env c s
  else s

/-- The second `.then` of `request`: deliver to the requester, then — when
caching is on and the entry survived — store the content, mark the entry
LOADED, and drain the queue (each queued callback is invoked with the
content, in order, and the queue ends empty). -/
def fetchThen2 (env : Env) (c : Nat) (content : String) (s : Sys) : Sys :=
  let p := env.props c
  let s := handleLoad env c content s
  if p.cacheRequests then
    match lookupStore s.cacheStore p.src with
    | some cache =>
      let cache := { cache with content := content, status := STATUS.LOADED }
      let s := { s with cacheStore := updateStore s.cacheStore p.src cache }
      let s := cache.queue.foldl (fun s w => handleLoad env w content s) s
      { s with cacheStore := updateStore s.cacheStore p.src { cache with queue := [] } }
    | none => s
  else s

/-- The `.catch` of `request`: purge the cache entry when caching is on, and
report the failure to the requester alone. -/
def fetchCatch (env : Env) (c : Nat) (message : String) (s : Sys) : Sys :=
  let p := env.props c
  let s := if p.cacheRequests then { s with cacheStore := deleteStore s.cacheStore p.src } else s
  handleError c message s

/-- A response delivered to the first `.then` of `request`:
`response.status`, `response.headers.get('content-type')` (`none` embeds
null) and the body text. -/
structure FetchResponse where
  status : Nat
  contentType : Option String
  body : String

/-- `(contentType || '').split(/ ?; ?/)[0]`: the text before the first `;`,
less the single optional space the separator consumes. -/
def parseFileType (ct : Option String) : String :=
  let cs := (ct.getD "").data
  match splitFirstSemi cs with
  | none => String.mk cs
  | some pre => String.mk (dropOneTrailingSpace pre)
where
  splitFirstSemi : List Char → Option (List Char)
    | [] => none
    | c :: cs => if c = ';' then some [] else (splitFirstSemi cs).map (fun r => c :: r)
  dropOneTrailingSpace (cs : List Char) : List Char :=
    match cs.reverse with
    | ' ' :: rest => rest.reverse
    | _ => cs

/-- The body of the first `.then` of `request`: reject status codes above
299 ("Not Found") and content types that are neither SVG nor plain text,
otherwise pass the body text on. -/
def checkResponse (r : FetchResponse) : Except String String :=
  let fileType := parseFileType r.contentType
  if r.status > 299 then .error "Not Found"
  else if !(["image/svg+xml", "text/plain"].any (fun d => containsSubstr fileType d)) then
    .error ("Content type isn't valid: " ++ fileType)
  else .ok r.body

/-- What the promise chain of `fetch` settles to: a transport-level failure
(`none`, carrying the rejection's message) or a response checked by the
first `.then`. -/
def fetchOutcome (resp : Option FetchResponse) (transportMsg : String) : Except String String :=
  match resp with
  | none => .error transportMsg
  | some r => checkResponse r

/-- Completion of the `fetch` issued by `request` on behalf of consumer `c`:
the success path runs the second `.then`, every failure path (transport
failure or a `throw` in the first `.then`) runs the `.catch`. -/
def fetchComplete (env : Env) (c : Nat) (resp : Option FetchResponse) (transportMsg : String) (s : Sys) : Sys :=
  match fetchOutcome resp transportMsg with
  | .ok content => fetchThen2 env c content s
  | .error msg => fetchCatch env c msg s

/-- `InlineSVG.componentDidMount`: activate, check the environment and the
presence of `src` (failures land in `handleError` through the  catch), then
`load`. -/
def componentDidMount (env : Env) (c : Nat) (s : Sys) : Sys :=
  let s := setInst c { s.insts c with isActive := true } s
  if !env.canUseDOM then s
  else if (s.insts c).status = STATUS.PENDING then
    if !env.isSupportedEnvironment then handleError c "Browser does not support SVG" s
    else if (env.props c).src = "" then handleError c "Missing src" s
    else load env c s
  else s

/-- `InlineSVG.componentWillUnmount`. -/
def componentWillUnmount (c : Nat) (s : Sys) : Sys :=
  setInst c { s.insts c with isActive := false } s

/-! ## Interleaved executions (for the request-coalescing claims) -/

/-- An event of the single-threaded cooperative schedule relevant to
request coalescing: a consumer's `load` step, or the success completion of
the in-flight `fetch` issued on behalf of requester `r`. -/
inductive Ev where
  | load (c : Nat)
  | succ (r : Nat) (content : String)

def step (env : Env) (s : Sys) : Ev → Sys
  | .load c => load env c s
  | .succ r content => fetchThen2 env r content s

def exec (env : Env) : List Ev → Sys → Sys
  | [], s => s
  | e :: es, s => exec env es (step env s e)

/-- The request-coalescing invariant: the identifier's cache entry exists
and is LOADING or LOADED, and no further `fetch` has been issued. -/
def CoalesceInv (src : String) (fl : List String) (st : Sys) : Prop :=
  (∃ e, lookupStore st.cacheStore src = some e
      ∧ (e.status = STATUS.LOADING ∨ e.status = STATUS.LOADED))
  ∧ st.fetchLog = fl

/-! ## Concrete fixtures (used to instantiate the theorems below) -/

def fixtureSrc : String := "https://x/a.svg"

def propsA : Props := { src := fixtureSrc }

def instActive : InstState := { isActive := true }

def instInactive : InstState := { isActive := false }

/-- A parse collaborator recognising the single document `<svg/>`. -/
def parseSvgOnly : String → Option SVGNode :=
  fun t => if t = "<svg/>" then some (SVGNode.mk "svg" "" [] []) else none

def envA : Env := { props := fun _ => propsA, parse := parseSvgOnly, elementOk := fun _ => true }

/-- A parse collaborator for which conversion always fails (the parsed node
is null or not an SVG root). -/
def envParseFail : Env := { props := fun _ => propsA, parse := fun _ => none, elementOk := fun _ => true }

def envDataURI : Env :=
  { props := fun _ => { src := "data:image/svg+xml,<svg/>" }, parse := parseSvgOnly,
    elementOk := fun _ => true }

def envEmptyDataURI : Env :=
  { props := fun _ => { src := "data:image/svg+xml," }, parse := fun _ => none,
    elementOk := fun _ => true }

def sysActive : Sys := { insts := fun _ => instActive }

/-- A state in which a fetch for `fixtureSrc` is in flight with two queued
waiters. -/
def sysQueued : Sys :=
  { insts := fun _ => instActive,
    cacheStore := [(fixtureSrc, { content := "", queue := [1, 2], status := STATUS.LOADING })] }

/-- A state in which consumer 0 has been torn down. -/
def sysInactive0 : Sys :=
  { insts := fun i => if i = 0 then instInactive else instActive,
    cacheStore := [(fixtureSrc, { content := "", queue := [0, 1], status := STATUS.LOADING })] }

/-- A 404 response (an HTML error page). -/
def resp404 : FetchResponse := { status := 404, contentType := some "text/html", body := "<html/>" }

/-! ## Store lemmas -/

theorem lookup_updateStore_self (st : List (String × IStorageItem)) (k : String) (v : IStorageItem) :
    lookupStore (updateStore st k v) k = some v := by
  induction st with
  | nil => simp [updateStore, lookupStore]
  | cons e rest ih =>
    by_cases h : e.1 = k
    · simp [updateStore, lookupStore, h]
    · simpa [updateStore, lookupStore, h] using ih

theorem lookup_deleteStore_self (st : List (String × IStorageItem)) (k : String) :
    lookupStore (deleteStore st k) k = none := by
  induction st with
  | nil => simp [deleteStore, lookupStore]
  | cons e rest ih =>
    by_cases h : e.1 = k
    · simpa [deleteStore, List.filter_cons, h] using ih
    · simp [deleteStore, lookupStore, List.filter_cons, List.find?_cons, h]

/-! ## Frame lemmas: which components each operation leaves untouched -/

theorem handleError_cacheStore (c : Nat) (m : String) (s : Sys) :
    (handleError c m s).cacheStore = s.cacheStore := by
  unfold handleError setInst; split <;> split <;> rfl

theorem handleError_fetchLog (c : Nat) (m : String) (s : Sys) :
    (handleError c m s).fetchLog = s.fetchLog := by
  unfold handleError setInst; split <;> split <;> rfl

theorem handleError_calls (c : Nat) (m : String) (s : Sys) :
    (handleError c m s).calls = s.calls := by
  unfold handleError setInst; split <;> split <;> rfl

theorem handleError_insts_ne (c : Nat) (m : String) (s : Sys) (i : Nat) (h : i ≠ c) :
    (handleError c m s).insts i = s.insts i := by
  unfold handleError setInst; split <;> split <;> simp [h]

theorem handleError_isActive (c : Nat) (m : String) (s : Sys) (i : Nat) :
    ((handleError c m s).insts i).isActive = (s.insts i).isActive := by
  unfold handleError setInst
  split <;> split <;> (try rfl) <;> (by_cases h : i = c <;> simp [h])

theorem getNode_fst_cacheStore (env : Env) (c : Nat) (s : Sys) :
    (getNode env c s).1.cacheStore = s.cacheStore := by
  unfold getNode; split <;> simp [handleError_cacheStore]

theorem getNode_fst_fetchLog (env : Env) (c : Nat) (s : Sys) :
    (getNode env c s).1.fetchLog = s.fetchLog := by
  unfold getNode; split <;> simp [handleError_fetchLog]

theorem getNode_fst_calls (env : Env) (c : Nat) (s : Sys) :
    (getNode env c s).1.calls = s.calls := by
  unfold getNode; split <;> simp [handleError_calls]

theorem getNode_fst_insts_ne (env : Env) (c : Nat) (s : Sys) (i : Nat) (h : i ≠ c) :
    (getNode env c s).1.insts i = s.insts i := by
  unfold getNode; split <;> simp [handleError_insts_ne _ _ _ _ h]

theorem getNode_fst_isActive (env : Env) (c : Nat) (s : Sys) (i : Nat) :
    ((getNode env c s).1.insts i).isActive = (s.insts i).isActive := by
  unfold getNode; split <;> simp [handleError_isActive]

theorem getElement_cacheStore (env : Env) (c : Nat) (s : Sys) :
    (getElement env c s).cacheStore = s.cacheStore := by
  unfold getElement setInst
  split
  case _ s2 node heq =>
    have h2 : s2.cacheStore = s.cacheStore := by
      have := getNode_fst_cacheStore env c s
      rw [heq] at this; exact this
    split <;> simp [handleError_cacheStore, h2]
  case _ s2 heq =>
    have h2 : s2.cacheStore = s.cacheStore := by
      have := getNode_fst_cacheStore env c s
      rw [heq] at this; exact this
    simp [handleError_cacheStore, h2]

theorem getElement_fetchLog (env : Env) (c : Nat) (s : Sys) :
    (getElement env c s).fetchLog = s.fetchLog := by
  unfold getElement setInst
  split
  case _ s2 node heq =>
    have h2 : s2.fetchLog = s.fetchLog := by
      have := getNode_fst_fetchLog env c s
      rw [heq] at this; exact this
    split <;> simp [handleError_fetchLog, h2]
  case _ s2 heq =>
    have h2 : s2.fetchLog = s.fetchLog := by
      have := getNode_fst_fetchLog env c s
      rw [heq] at this; exact this
    simp [handleError_fetchLog, h2]

theorem getElement_calls (env : Env) (c : Nat) (s : Sys) :
    (getElement env c s).calls = s.calls := by
  unfold getElement setInst
  split
  case _ s2 node heq =>
    have h2 : s2.calls = s.calls := by
      have := getNode_fst_calls env c s
      rw [heq] at this; exact this
    split <;> simp [handleError_calls, h2]
  case _ s2 heq =>
    have h2 : s2.calls = s.calls := by
      have := getNode_fst_calls env c s
      rw [heq] at this; exact this
    simp [handleError_calls, h2]

theorem getElement_insts_ne (env : Env) (c : Nat) (s : Sys) (i : Nat) (h : i ≠ c) :
    (getElement env c s).insts i = s.insts i := by
  unfold getElement setInst
  split
  case _ s2 node heq =>
    have h2 : s2.insts i = s.insts i := by
      have := getNode_fst_insts_ne env c s i h
      rw [heq] at this; exact this
    split <;> simp [handleError_insts_ne _ _ _ _ h, h2, h]
  case _ s2 heq =>
    have h2 : s2.insts i = s.insts i := by
      have := getNode_fst_insts_ne env c s i h
      rw [heq] at this; exact this
    simp [handleError_insts_ne _ _ _ _ h, h2]

theorem getElement_isActive (env : Env) (c : Nat) (s : Sys) (i : Nat) :
    ((getElement env c s).insts i).isActive = (s.insts i).isActive := by
  unfold getElement setInst
  split
  case _ s2 node heq =>
    have h2 : ∀ j, (s2.insts j).isActive = (s.insts j).isActive := by
      intro j
      have := getNode_fst_isActive env c s j
      rw [heq] at this; exact this
    split
    · by_cases h : i = c <;> simp [h, h2]
    · rw [handleError_isActive]; exact h2 i
  case _ s2 heq =>
    have h2 : ∀ j, (s2.insts j).isActive = (s.insts j).isActive := by
      intro j
      have := getNode_fst_isActive env c s j
      rw [heq] at this; exact this
    rw [handleError_isActive]; exact h2 i

theorem handleLoad_cacheStore (env : Env) (c : Nat) (t : String) (s : Sys) :
    (handleLoad env c t s).cacheStore = s.cacheStore := by
  unfold handleLoad setInst
  dsimp only
  split <;> simp [getElement_cacheStore]

theorem handleLoad_fetchLog (env : Env) (c : Nat) (t : String) (s : Sys) :
    (handleLoad env c t s).fetchLog = s.fetchLog := by
  unfold handleLoad setInst
  dsimp only
  split <;> simp [getElement_fetchLog]

theorem handleLoad_calls (env : Env) (c : Nat) (t : String) (s : Sys) :
    (handleLoad env c t s).calls = s.calls ++ [(c, t)] := by
  unfold handleLoad setInst
  dsimp only
  split <;> simp [getElement_calls]

theorem handleLoad_insts_ne (env : Env) (c : Nat) (t : String) (s : Sys) (i : Nat) (h : i ≠ c) :
    (handleLoad env c t s).insts i = s.insts i := by
  unfold handleLoad setInst
  dsimp only
  split
  · rw [getElement_insts_ne _ _ _ _ h]; simp [h]
  · rfl

theorem handleLoad_isActive (env : Env) (c : Nat) (t : String) (s : Sys) (i : Nat) :
    ((handleLoad env c t s).insts i).isActive = (s.insts i).isActive := by
  unfold handleLoad setInst
  dsimp only
  split
  · rw [getElement_isActive]
    by_cases h : i = c <;> simp [h]
  · rfl

/-- `handleLoad` aimed at any consumer leaves an inactive consumer's state
alone: its own guard blocks a write to the target, and writes to other
targets touch only their own state. -/
theorem handleLoad_insts_inactive (env : Env) (w c : Nat) (t : String) (s : Sys)
    (h : (s.insts c).isActive = false) :
    (handleLoad env w t s).insts c = s.insts c := by
  by_cases hw : c = w
  · subst hw
    unfold handleLoad
    dsimp only
    rw [if_neg (by simp [h])]
  · exact handleLoad_insts_ne env w t s c hw

theorem drain_cacheStore (env : Env) (t : String) (q : List Nat) (s : Sys) :
    (q.foldl (fun s w => handleLoad env w t s) s).cacheStore = s.cacheStore := by
  induction q generalizing s with
  | nil => rfl
  | cons w q ih => rw [List.foldl_cons, ih, handleLoad_cacheStore]

theorem drain_fetchLog (env : Env) (t : String) (q : List Nat) (s : Sys) :
    (q.foldl (fun s w => handleLoad env w t s) s).fetchLog = s.fetchLog := by
  induction q generalizing s with
  | nil => rfl
  | cons w q ih => rw [List.foldl_cons, ih, handleLoad_fetchLog]

/-- Draining a queue invokes each queued callback with the content, in FIFO
order, exactly once each. -/
theorem drain_calls (env : Env) (t : String) (q : List Nat) (s : Sys) :
    (q.foldl (fun s w => handleLoad env w t s) s).calls
      = s.calls ++ q.map (fun w => (w, t)) := by
  induction q generalizing s with
  | nil => simp
  | cons w q ih => rw [List.foldl_cons, ih, handleLoad_calls]; simp

theorem drain_isActive (env : Env) (t : String) (q : List Nat) (s : Sys) (i : Nat) :
    (((q.foldl (fun s w => handleLoad env w t s) s).insts i)).isActive = (s.insts i).isActive := by
  induction q generalizing s with
  | nil => rfl
  | cons w q ih => rw [List.foldl_cons, ih, handleLoad_isActive]

theorem drain_insts_inactive (env : Env) (t : String) (q : List Nat) (s : Sys) (c : Nat)
    (h : (s.insts c).isActive = false) :
    ((q.foldl (fun s w => handleLoad env w t s) s).insts c) = s.insts c := by
  induction q generalizing s with
  | nil => rfl
  | cons w q ih =>
    rw [List.foldl_cons]
    have h2 : ((handleLoad env w t s).insts c).isActive = false := by
      rw [handleLoad_isActive]; exact h
    rw [ih _ h2, handleLoad_insts_inactive _ _ _ _ _ h]

theorem handleError_errors_active (c : Nat) (m : String) (s : Sys) (h : (s.insts c).isActive = true) :
    (handleError c m s).errors = s.errors ++ [(c, m)] := by
  unfold handleError setInst
  dsimp only
  rw [if_pos h]

theorem handleError_status_active (c : Nat) (m : String) (s : Sys) (h : (s.insts c).isActive = true) :
    ((handleError c m s).insts c).status
      = (if m = "Browser does not support SVG" then STATUS.UNSUPPORTED else STATUS.FAILED) := by
  unfold handleError setInst
  dsimp only
  rw [if_pos h]
  simp

/-! ## Behaviour of `load` and of fetch completion against the cache -/

/-- A `load` that finds no usable cache entry and cannot resolve its source
inline issues a `fetch`, creating the LOADING entry first when caching is
enabled. -/
theorem load_cache_miss (env : Env) (c : Nat) (s : Sys)
    (hact : (s.insts c).isActive = true)
    (hmiss : (if (env.props c).cacheRequests then lookupStore s.cacheStore (env.props c).src else none) = none)
    (hdata : matchDataURI (env.props c).src = none)
    (hinline : containsSubstr (env.props c).src "<svg" = false) :
    (load env c s).fetchLog = s.fetchLog ++ [(env.props c).src]
    ∧ (load env c s).cacheStore
        = (if (env.props c).cacheRequests then
            updateStore s.cacheStore (env.props c).src { content := "", queue := [], status := STATUS.LOADING }
          else s.cacheStore) := by
  unfold load loadCb request
  dsimp only [setInst]
  rw [if_pos hact]
  rw [hmiss, hdata, hinline]
  by_cases hc : (env.props c).cacheRequests
  · simp [hc]
  · simp [hc]

/-- A `load` that finds a cache entry never fetches: a LOADING entry gets
the consumer's callback appended to its queue, a LOADED entry serves its
stored content to the consumer at once. -/
theorem load_finds_entry (env : Env) (c : Nat) (s : Sys) (e : IStorageItem)
    (hact : (s.insts c).isActive = true)
    (hc : (env.props c).cacheRequests = true)
    (hl : lookupStore s.cacheStore (env.props c).src = some e) :
    (load env c s).fetchLog = s.fetchLog
    ∧ (load env c s).cacheStore
        = (if e.status = STATUS.LOADING then
             updateStore s.cacheStore (env.props c).src { e with queue := e.queue ++ [c] }
           else s.cacheStore)
    ∧ (e.status = STATUS.LOADING →
        lookupStore (load env c s).cacheStore (env.props c).src = some { e with queue := e.queue ++ [c] })
    ∧ (e.status = STATUS.LOADED →
        (load env c s).calls = s.calls ++ [(c, e.content)]) := by
  unfold load loadCb
  dsimp only [setInst]
  rw [if_pos hact]
  simp only [hc, if_true]
  rw [hl]
  by_cases hLd : e.status = STATUS.LOADING
  · simp [hLd, lookup_updateStore_self, STATUS.LOADING, STATUS.LOADED]
  · by_cases hE : e.status = STATUS.LOADED
    · simp [hLd, hE, handleLoad_fetchLog, handleLoad_cacheStore, handleLoad_calls,
        STATUS.LOADING, STATUS.LOADED]
    · simp [hLd, hE]

/-- A successful fetch completion against a surviving cache entry: the
entry keeps its key, stores the content, becomes LOADED with an empty
queue, and the requester plus every queued waiter (in FIFO order) receive
the content. -/
theorem fetchThen2_spec (env : Env) (r : Nat) (t : String) (s : Sys) (e : IStorageItem)
    (hc : (env.props r).cacheRequests = true)
    (hl : lookupStore s.cacheStore (env.props r).src = some e) :
    lookupStore (fetchThen2 env r t s).cacheStore (env.props r).src
      = some { content := t, queue := [], status := STATUS.LOADED }
    ∧ (fetchThen2 env r t s).calls = s.calls ++ [(r, t)] ++ e.queue.map (fun w => (w, t))
    ∧ (fetchThen2 env r t s).fetchLog = s.fetchLog := by
  unfold fetchThen2
  dsimp only
  simp only [hc, if_true]
  have hl2 : lookupStore (handleLoad env r t s).cacheStore (env.props r).src = some e := by
    rw [handleLoad_cacheStore]; exact hl
  rw [hl2]
  refine ⟨?_, ?_, ?_⟩
  · simp [lookup_updateStore_self]
  · simp [drain_calls, handleLoad_calls]
  · simp [drain_fetchLog, handleLoad_fetchLog]

/-- A failed fetch completion: the cache entry is purged and the failure is
reported to the active requester alone — no queued callback is invoked. -/
theorem fetchCatch_spec (env : Env) (r : Nat) (msg : String) (s : Sys)
    (hc : (env.props r).cacheRequests = true)
    (hact : (s.insts r).isActive = true) :
    lookupStore (fetchCatch env r msg s).cacheStore (env.props r).src = none
    ∧ (fetchCatch env r msg s).errors = s.errors ++ [(r, msg)]
    ∧ (fetchCatch env r msg s).calls = s.calls
    ∧ (fetchCatch env r msg s).fetchLog = s.fetchLog := by
  unfold fetchCatch
  dsimp only
  simp only [hc, if_true]
  refine ⟨?_, ?_, ?_, ?_⟩
  · rw [handleError_cacheStore]
    exact lookup_deleteStore_self _ _
  · rw [handleError_errors_active]
    exact hact
  · rw [handleError_calls]
  · rw [handleError_fetchLog]

theorem load_inactive (env : Env) (c : Nat) (s : Sys) (h : (s.insts c).isActive = false) :
    load env c s = s := by
  unfold load
  rw [if_neg (by simp [h])]

theorem handleError_inactive (c : Nat) (m : String) (s : Sys) (h : (s.insts c).isActive = false) :
    handleError c m s = s := by
  unfold handleError
  dsimp only
  rw [if_neg (by simp [h])]

theorem handleError_insts_pres (r c : Nat) (m : String) (s : Sys)
    (h : (s.insts c).isActive = false) :
    (handleError r m s).insts c = s.insts c := by
  by_cases hrc : c = r
  · subst hrc
    rw [handleError_inactive _ _ _ h]
  · exact handleError_insts_ne r m s c hrc

theorem fetchThen2_insts_inactive (env : Env) (r : Nat) (t : String) (s : Sys) (c : Nat)
    (h : (s.insts c).isActive = false) :
    (fetchThen2 env r t s).insts c = s.insts c := by
  have h1 : (handleLoad env r t s).insts c = s.insts c := handleLoad_insts_inactive env r c t s h
  have hflag : ((handleLoad env r t s).insts c).isActive = false := by
    rw [handleLoad_isActive]; exact h
  unfold fetchThen2
  dsimp only
  split
  · split
    case _ cache heq =>
      rw [drain_insts_inactive]
      · exact h1
      · exact hflag
    case _ heq => exact h1
  · exact h1

/-! ## The request-coalescing invariant is preserved by every event -/

theorem step_preserves_inv (env : Env) (src : String) (fl : List String)
    (hprops : ∀ c, (env.props c).cacheRequests = true ∧ (env.props c).src = src)
    (st : Sys) (e : Ev) (h : CoalesceInv src fl st) :
    CoalesceInv src fl (step env st e) := by
  obtain ⟨⟨en, hl, hst⟩, hfl⟩ := h
  cases e with
  | load c =>
    show CoalesceInv src fl (load env c st)
    by_cases hact : (st.insts c).isActive = true
    · have hc := (hprops c).1
      have hs := (hprops c).2
      have key := load_finds_entry env c st en hact hc (by rw [hs]; exact hl)
      refine ⟨?_, by rw [key.1]; exact hfl⟩
      by_cases hLd : en.status = STATUS.LOADING
      · refine ⟨{ en with queue := en.queue ++ [c] }, ?_, ?_⟩
        · have h3 := key.2.2.1 hLd
          rw [hs] at h3
          exact h3
        · exact Or.inl hLd
      · refine ⟨en, ?_, hst⟩
        have h2 := key.2.1
        rw [if_neg hLd] at h2
        rw [h2]
        exact hl
    · rw [load_inactive env c st (by simpa using hact)]
      exact ⟨⟨en, hl, hst⟩, hfl⟩
  | succ r t =>
    show CoalesceInv src fl (fetchThen2 env r t st)
    have hc := (hprops r).1
    have hs := (hprops r).2
    have key := fetchThen2_spec env r t st en hc (by rw [hs]; exact hl)
    refine ⟨⟨{ content := t, queue := [], status := STATUS.LOADED }, ?_, Or.inr rfl⟩, ?_⟩
    · have h3 := key.1
      rw [hs] at h3
      exact h3
    · rw [key.2.2]
      exact hfl

theorem exec_preserves_inv (env : Env) (src : String) (fl : List String)
    (hprops : ∀ c, (env.props c).cacheRequests = true ∧ (env.props c).src = src)
    (evs : List Ev) (st : Sys) (h : CoalesceInv src fl st) :
    CoalesceInv src fl (exec env evs st) := by
  induction evs generalizing st with
  | nil => exact h
  | cons e evs ih =>
    rw [exec]
    exact ih _ (step_preserves_inv env src fl hprops st e h)

/-- When parsing succeeds and nothing else intervenes, `handleLoad` carries
an active consumer through LOADED to READY with the delivered content. -/
theorem handleLoad_ready (env : Env) (c : Nat) (t : String) (s : Sys) (node : SVGNode)
    (hact : (s.insts c).isActive = true)
    (hpp : (env.props c).preProcessor = none)
    (hparse : env.parse t = some node)
    (huniq : (env.props c).uniquifyIDs = false)
    (hdesc : (env.props c).description = none)
    (htitle : (env.props c).title = none)
    (hok : env.elementOk node = true) :
    ((handleLoad env c t s).insts c).status = STATUS.READY
    ∧ ((handleLoad env c t s).insts c).content = t
    ∧ ((handleLoad env c t s).insts c).element = some node := by
  unfold handleLoad getElement getNode processSVG updateSVGAttributes setInst
  simp [hact, hpp, hparse, huniq, hdesc, htitle, hok]

/-- The transformer's per-element rule for one identifier-bearing attribute
with no `url(...)` pattern in its value: `href`/`xlink:href` values that are
non-empty and `#`-free are exempted (data references); every other case —
`id`, the `xlink:role`/`xlink:arcrole` attributes, fragment references and
empty values — gets `__<hash>` appended. -/
theorem suffix_rule_single_attr (b hash tg tx nm v : String)
    (hname : nm ∈ replaceableAttributes)
    (hnourl : matchUrl v = none) :
    updateSVGAttributes b hash true
        (SVGNode.mk "svg" "" [] [SVGNode.mk tg tx [⟨nm, v⟩] []])
      = SVGNode.mk "svg" "" []
          [SVGNode.mk tg tx
            [⟨nm, if (nm = "href" ∨ nm = "xlink:href") ∧ v ≠ "" ∧ v.data.contains '#' = false then v
                  else v ++ "__" ++ hash⟩] []] := by
  simp only [replaceableAttributes, List.mem_cons, List.not_mem_nil, or_false] at hname
  unfold updateSVGAttributes updateChildren
  rcases hname with rfl | rfl | rfl | rfl | rfl <;>
  · by_cases hv : v = ""
    · subst hv
      simp [processAttributes, replaceableAttributes, suffixAttr, updateFirstAttr,
        urlRewriteAttr, isDataValue, linkAttributes, updateChildren, matchUrl, matchUrlAux]
    · by_cases hh : '#' ∈ v.data <;>
        simp [processAttributes, replaceableAttributes, suffixAttr, updateFirstAttr,
          urlRewriteAttr, hnourl, isDataValue, linkAttributes, updateChildren, hv, hh]

/-! ## The claims -/

/-- C1.  For every source identifier, when caching is enabled, at most one
network request for that identifier is ever in flight across all consumers:
over any interleaving of `load` calls (the first by an active consumer on a
cache-miss, remote source) with the single fetch's success completion,
exactly one `fetch` is issued; the first `load` creates the LOADING cache
entry within its atomic step, and any later `load` that finds an entry
issues no fetch — it appends its callback to a LOADING entry's queue, or is
served the stored content of a LOADED entry. -/
theorem C1_request_coalescing (env : Env) (src : String) (c1 : Nat) (rest : List Ev) (s0 : Sys)
    (hprops : ∀ c, (env.props c).cacheRequests = true ∧ (env.props c).src = src)
    (hact : (s0.insts c1).isActive = true)
    (hdata : matchDataURI src = none)
    (hinline : containsSubstr src "<svg" = false)
    (hmiss : lookupStore s0.cacheStore src = none) :
    (exec env (Ev.load c1 :: rest) s0).fetchLog = s0.fetchLog ++ [src]
    ∧ lookupStore (load env c1 s0).cacheStore src
        = some { content := "", queue := [], status := STATUS.LOADING }
    ∧ (∀ st c e, (st.insts c).isActive = true →
        lookupStore st.cacheStore src = some e →
        (load env c st).fetchLog = st.fetchLog
        ∧ (e.status = STATUS.LOADING →
            lookupStore (load env c st).cacheStore src = some { e with queue := e.queue ++ [c] })
        ∧ (e.status = STATUS.LOADED →
            (load env c st).calls = st.calls ++ [(c, e.content)])) := by
  have hc1 := (hprops c1).1
  have hs1 := (hprops c1).2
  have first := load_cache_miss env c1 s0 hact
    (by rw [hc1]; simp only [if_true]; rw [hs1]; exact hmiss)
    (by rw [hs1]; exact hdata) (by rw [hs1]; exact hinline)
  have hcs : (load env c1 s0).cacheStore
      = updateStore s0.cacheStore src { content := "", queue := [], status := STATUS.LOADING } := by
    have h2 := first.2
    rw [hc1] at h2
    simpa [hs1] using h2
  have hlk : lookupStore (load env c1 s0).cacheStore src
      = some { content := "", queue := [], status := STATUS.LOADING } := by
    rw [hcs]; exact lookup_updateStore_self _ _ _
  have hinv1 : CoalesceInv src (s0.fetchLog ++ [src]) (load env c1 s0) := by
    refine ⟨⟨_, hlk, Or.inl rfl⟩, ?_⟩
    rw [first.1, hs1]
  refine ⟨?_, hlk, ?_⟩
  · have hrun := exec_preserves_inv env src _ hprops rest (load env c1 s0) hinv1
    rw [exec]
    exact hrun.2
  · intro st c e ha hle
    have key := load_finds_entry env c st e ha (hprops c).1 (by rw [(hprops c).2]; exact hle)
    refine ⟨key.1, ?_, key.2.2.2⟩
    intro hLd
    have h3 := key.2.2.1 hLd
    rw [(hprops c).2] at h3
    exact h3

/-- Witness for C1: two concurrent loads of the same remote source followed
by the fetch completion issue exactly one fetch. -/
theorem C1_request_coalescing_witness :
    (sysActive.insts 0).isActive = true
    ∧ matchDataURI fixtureSrc = none
    ∧ containsSubstr fixtureSrc "<svg" = false
    ∧ lookupStore sysActive.cacheStore fixtureSrc = none
    ∧ (exec envA [Ev.load 0, Ev.load 1, Ev.succ 0 "<svg/>"] sysActive).fetchLog = [fixtureSrc] :=
  ⟨rfl, rfl, rfl, rfl,
    (C1_request_coalescing envA fixtureSrc 0 [Ev.load 1, Ev.succ 0 "<svg/>"] sysActive
      (fun _ => ⟨rfl, rfl⟩) rfl rfl rfl rfl).1⟩

/-- C2.  When a cached fetch succeeds, the entry is stored as LOADED with
the fetched content, the queued callbacks are each invoked exactly once
with that content in FIFO arrival order (the `calls` log extends by the
requester followed by the queue in order), the queue ends empty, and the
entry is retained so that a later active load of the identifier is a cache
hit: it fetches nothing and is served the stored content. -/
theorem C2_success_fanout (env : Env) (r : Nat) (t : String) (s : Sys) (e : IStorageItem)
    (hc : (env.props r).cacheRequests = true)
    (hl : lookupStore s.cacheStore (env.props r).src = some e) :
    lookupStore (fetchThen2 env r t s).cacheStore (env.props r).src
      = some { content := t, queue := [], status := STATUS.LOADED }
    ∧ (fetchThen2 env r t s).calls = s.calls ++ [(r, t)] ++ e.queue.map (fun w => (w, t))
    ∧ (∀ c, ((fetchThen2 env r t s).insts c).isActive = true →
        (env.props c).cacheRequests = true → (env.props c).src = (env.props r).src →
        (load env c (fetchThen2 env r t s)).fetchLog = (fetchThen2 env r t s).fetchLog
        ∧ (load env c (fetchThen2 env r t s)).calls = (fetchThen2 env r t s).calls ++ [(c, t)]) := by
  have key := fetchThen2_spec env r t s e hc hl
  refine ⟨key.1, key.2.1, ?_⟩
  intro c hact2 hcc hsrc
  have hl2 : lookupStore (fetchThen2 env r t s).cacheStore (env.props c).src
      = some { content := t, queue := [], status := STATUS.LOADED } := by
    rw [hsrc]; exact key.1
  have k2 := load_finds_entry env c (fetchThen2 env r t s) _ hact2 hcc hl2
  exact ⟨k2.1, k2.2.2.2 rfl⟩

/-- Witness for C2: a success completion with waiters 1 and 2 queued
invokes the requester's and then each waiter's callback once, in order. -/
theorem C2_success_fanout_witness :
    (envA.props 0).cacheRequests = true
    ∧ lookupStore sysQueued.cacheStore (envA.props 0).src
        = some { content := "", queue := [1, 2], status := STATUS.LOADING }
    ∧ (fetchThen2 envA 0 "<svg/>" sysQueued).calls
        = [(0, "<svg/>"), (1, "<svg/>"), (2, "<svg/>")] :=
  ⟨rfl, rfl,
    (C2_success_fanout envA 0 "<svg/>" sysQueued
      { content := "", queue := [1, 2], status := STATUS.LOADING } rfl rfl).2.1⟩

/-- C3.  When a cached fetch fails (transport failure, status above 299, or
invalid content type), the entry is deleted — afterwards the cache has no
entry for the identifier and a later active load of it starts a fresh fetch
— and the failure is reported only to the requester: no queued callback is
ever invoked. -/
theorem C3_failure_purges_and_isolates (env : Env) (r : Nat) (resp : Option FetchResponse)
    (tmsg msg : String) (s : Sys)
    (hc : (env.props r).cacheRequests = true)
    (hout : fetchOutcome resp tmsg = Except.error msg)
    (hact : (s.insts r).isActive = true) :
    lookupStore (fetchComplete env r resp tmsg s).cacheStore (env.props r).src = none
    ∧ (fetchComplete env r resp tmsg s).errors = s.errors ++ [(r, msg)]
    ∧ (fetchComplete env r resp tmsg s).calls = s.calls
    ∧ (∀ c, ((fetchComplete env r resp tmsg s).insts c).isActive = true →
        (env.props c).src = (env.props r).src →
        matchDataURI (env.props r).src = none →
        containsSubstr (env.props r).src "<svg" = false →
        (load env c (fetchComplete env r resp tmsg s)).fetchLog
          = (fetchComplete env r resp tmsg s).fetchLog ++ [(env.props c).src]) := by
  have hstep : fetchComplete env r resp tmsg s = fetchCatch env r msg s := by
    unfold fetchComplete; rw [hout]
  rw [hstep]
  have key := fetchCatch_spec env r msg s hc hact
  refine ⟨key.1, key.2.1, key.2.2.1, ?_⟩
  intro c hact2 hsrc hdata hinline
  have hmiss2 : (if (env.props c).cacheRequests then
      lookupStore (fetchCatch env r msg s).cacheStore (env.props c).src else none) = none := by
    by_cases hcc : (env.props c).cacheRequests
    · rw [if_pos hcc, hsrc]; exact key.1
    · rw [if_neg hcc]
  have k2 := load_cache_miss env c (fetchCatch env r msg s) hact2 hmiss2
    (by rw [hsrc]; exact hdata) (by rw [hsrc]; exact hinline)
  exact k2.1

/-- Witness for C3: a 404 response classifies as the "Not Found" failure,
purges the entry even with waiters queued, and notifies only requester 0. -/
theorem C3_failure_purges_and_isolates_witness :
    fetchOutcome (some resp404) "network down" = Except.error "Not Found"
    ∧ (sysQueued.insts 0).isActive = true
    ∧ lookupStore (fetchComplete envA 0 (some resp404) "network down" sysQueued).cacheStore fixtureSrc
        = none
    ∧ (fetchComplete envA 0 (some resp404) "network down" sysQueued).errors = [(0, "Not Found")]
    ∧ (fetchComplete envA 0 (some resp404) "network down" sysQueued).calls = [] := by
  have k := C3_failure_purges_and_isolates envA 0 (some resp404) "network down" "Not Found"
    sysQueued rfl rfl rfl
  exact ⟨rfl, rfl, k.1, k.2.1, k.2.2.1⟩

/-- C4 counterexample.  The claim says `<use href="#x"/>` is left
unmodified by uniquification with token `abc123`; in fact the transformer
appends the suffix to fragment references: the value becomes
`#x__abc123`. -/
theorem C4_counterexample_fragment_href_suffixed :
    updateSVGAttributes "" "abc123" true
        (SVGNode.mk "svg" "" [] [SVGNode.mk "use" "" [⟨"href", "#x"⟩] []])
      = SVGNode.mk "svg" "" [] [SVGNode.mk "use" "" [⟨"href", "#x__abc123"⟩] []]
    ∧ "#x__abc123" ≠ "#x" := by
  constructor
  · have h := suffix_rule_single_attr "" "abc123" "use" "" "href" "#x"
      (by simp [replaceableAttributes]) rfl
    rw [h, if_neg (by decide)]
    exact rfl
  · decide

/-- C4 (amended).  For an element with one identifier-bearing attribute
(value free of `url(...)` patterns), `id`/`xlink:role`/`xlink:arcrole`
values always get `__<token>` appended; an `href`/`xlink:href` value is
exempted exactly when it is a data reference — non-empty and lacking `#` —
while fragment references (containing `#`, e.g. `<use href="#x"/>` becoming
`#x__<token>`) and empty values are suffixed like the rest. -/
theorem C4_amended_suffix_rule (b hash tg tx nm v : String)
    (hname : nm ∈ replaceableAttributes)
    (hnourl : matchUrl v = none) :
    updateSVGAttributes b hash true
        (SVGNode.mk "svg" "" [] [SVGNode.mk tg tx [⟨nm, v⟩] []])
      = SVGNode.mk "svg" "" []
          [SVGNode.mk tg tx
            [⟨nm, if (nm = "href" ∨ nm = "xlink:href") ∧ v ≠ "" ∧ v.data.contains '#' = false then v
                  else v ++ "__" ++ hash⟩] []] :=
  suffix_rule_single_attr b hash tg tx nm v hname hnourl

/-- Witness for the amended C4 at the claim's own scenario. -/
theorem C4_amended_suffix_rule_witness :
    "href" ∈ replaceableAttributes
    ∧ matchUrl "#x" = none
    ∧ updateSVGAttributes "" "abc123" true
        (SVGNode.mk "svg" "" [] [SVGNode.mk "use" "" [⟨"href", "#x"⟩] []])
      = SVGNode.mk "svg" "" [] [SVGNode.mk "use" "" [⟨"href", "#x__abc123"⟩] []] := by
  refine ⟨by simp [replaceableAttributes], rfl, ?_⟩
  have h := C4_amended_suffix_rule "" "abc123" "use" "" "href" "#x"
    (by simp [replaceableAttributes]) rfl
  rw [h, if_neg (by decide)]
  exact rfl

/-- C5 counterexample.  The claim says re-applying the transformer with the
same token never yields `x__token__token`; in fact a second application
suffixes again. -/
theorem C5_counterexample_double_suffix :
    updateSVGAttributes "" "abc123" true (updateSVGAttributes "" "abc123" true
        (SVGNode.mk "svg" "" [] [SVGNode.mk "rect" "" [⟨"id", "x"⟩] []]))
      = SVGNode.mk "svg" "" [] [SVGNode.mk "rect" "" [⟨"id", "x__abc123__abc123"⟩] []]
    ∧ "x__abc123__abc123" ≠ "x__abc123" := by
  constructor
  · have h1 := suffix_rule_single_attr "" "abc123" "rect" "" "id" "x"
      (by simp [replaceableAttributes]) rfl
    rw [h1, if_neg (by decide)]
    have h2 := suffix_rule_single_attr "" "abc123" "rect" "" "id" ("x" ++ "__" ++ "abc123")
      (by simp [replaceableAttributes]) rfl
    rw [h2, if_neg (by decide)]
    exact rfl
  · decide

/-- C5 (amended).  The transformer is not idempotent: applying it twice
with the same instance token to an `id`-bearing element appends the suffix
twice, producing `v__<token>__<token>`. -/
theorem C5_amended_not_idempotent (b hash tg tx v : String)
    (h1 : matchUrl v = none)
    (h2 : matchUrl (v ++ "__" ++ hash) = none) :
    updateSVGAttributes b hash true (updateSVGAttributes b hash true
        (SVGNode.mk "svg" "" [] [SVGNode.mk tg tx [⟨"id", v⟩] []]))
      = SVGNode.mk "svg" "" [] [SVGNode.mk tg tx [⟨"id", v ++ "__" ++ hash ++ "__" ++ hash⟩] []] := by
  have step1 := suffix_rule_single_attr b hash tg tx "id" v (by simp [replaceableAttributes]) h1
  rw [step1]
  have step2 := suffix_rule_single_attr b hash tg tx "id" (v ++ "__" ++ hash)
    (by simp [replaceableAttributes]) h2
  simpa using step2

/-- Witness for the amended C5. -/
theorem C5_amended_not_idempotent_witness :
    matchUrl "x" = none
    ∧ matchUrl ("x" ++ "__" ++ "abc123") = none
    ∧ updateSVGAttributes "" "abc123" true (updateSVGAttributes "" "abc123" true
        (SVGNode.mk "svg" "" [] [SVGNode.mk "rect" "" [⟨"id", "x"⟩] []]))
      = SVGNode.mk "svg" "" []
          [SVGNode.mk "rect" "" [⟨"id", "x" ++ "__" ++ "abc123" ++ "__" ++ "abc123"⟩] []] :=
  ⟨rfl, rfl, C5_amended_not_idempotent "" "abc123" "rect" "" "x" rfl rfl⟩

/-- C6.  The claim says every failure produces exactly one terminal status
transition and one error notification.  Evaluating the code at the failing
input — content whose parse yields no SVG root, delivered to an active
consumer — shows `handleError` fires twice for the single underlying
failure: `getNode`'s catch reports it and returns `undefined`, then
`getElement` converts that `undefined`, fails again, and reports a second
time, producing two FAILED status writes and two error notifications. -/
theorem C6_conversion_failure_double_error :
    (handleLoad envParseFail 0 "not an svg document" sysActive).errors
      = [(0, "Could not convert the src to a DOM Node"),
         (0, "Could not convert the src to a React element")]
    ∧ (handleLoad envParseFail 0 "not an svg document" sysActive).writes
      = [(0, STATUS.LOADED), (0, STATUS.FAILED), (0, STATUS.FAILED)] :=
  ⟨rfl, rfl⟩

/-- C7 counterexample.  The claim says every source matching the SVG
data-URI pattern is decoded locally with no network request and no cache
entry; the matching source `data:image/svg+xml,` (empty payload) instead
issues a fetch and creates a LOADING cache entry. -/
theorem C7_counterexample_empty_payload :
    matchDataURI "data:image/svg+xml," = some (false, "")
    ∧ (load envEmptyDataURI 0 sysActive).fetchLog = ["data:image/svg+xml,"]
    ∧ lookupStore (load envEmptyDataURI 0 sysActive).cacheStore "data:image/svg+xml,"
        = some { content := "", queue := [], status := STATUS.LOADING } :=
  ⟨rfl, rfl, rfl⟩

/-- C7 (amended).  For every source matching the SVG data-URI pattern whose
payload decodes (base64 when `;base64` is declared, percent-decoding
otherwise) to a non-empty text, `load` delivers the decoded text as loaded
content with no network request and no cache entry created, and with
successful conversion the consumer reaches READY — in particular
`data:image/svg+xml,<svg/>` decodes to the literal `<svg/>`. -/
theorem C7_amended_data_uri_inline (env : Env) (c : Nat) (s : Sys) (b64 : Bool) (payload t : String)
    (node : SVGNode)
    (hact : (s.insts c).isActive = true)
    (hm : matchDataURI (env.props c).src = some (b64, payload))
    (hdec : (if b64 then atob payload else decodeURIComponent payload) = t)
    (hne : t ≠ "")
    (hmiss : (if (env.props c).cacheRequests then lookupStore s.cacheStore (env.props c).src else none) = none)
    (hpp : (env.props c).preProcessor = none)
    (hparse : env.parse t = some node)
    (huniq : (env.props c).uniquifyIDs = false)
    (hdesc : (env.props c).description = none)
    (htitle : (env.props c).title = none)
    (hok : env.elementOk node = true) :
    (load env c s).fetchLog = s.fetchLog
    ∧ (load env c s).cacheStore = s.cacheStore
    ∧ (load env c s).calls = s.calls ++ [(c, t)]
    ∧ ((load env c s).insts c).status = STATUS.READY
    ∧ ((load env c s).insts c).content = t := by
  unfold load loadCb
  dsimp only [setInst]
  rw [if_pos hact]
  rw [hmiss, hm]
  dsimp only
  rw [hdec]
  rw [if_pos hne]
  refine ⟨?_, ?_, ?_, ?_, ?_⟩
  · rw [handleLoad_fetchLog]
  · rw [handleLoad_cacheStore]
  · rw [handleLoad_calls]
  · exact (handleLoad_ready env c t _ node (by simp [hact]) hpp hparse huniq hdesc htitle hok).1
  · exact (handleLoad_ready env c t _ node (by simp [hact]) hpp hparse huniq hdesc htitle hok).2.1

/-- Witness for the amended C7 at the claim's round-trip scenario. -/
theorem C7_amended_data_uri_inline_witness :
    (sysActive.insts 0).isActive = true
    ∧ matchDataURI "data:image/svg+xml,<svg/>" = some (false, "<svg/>")
    ∧ decodeURIComponent "<svg/>" = "<svg/>"
    ∧ envDataURI.parse "<svg/>" = some (SVGNode.mk "svg" "" [] [])
    ∧ (load envDataURI 0 sysActive).fetchLog = []
    ∧ (load envDataURI 0 sysActive).cacheStore = []
    ∧ ((load envDataURI 0 sysActive).insts 0).status = STATUS.READY := by
  have k := C7_amended_data_uri_inline envDataURI 0 sysActive false "<svg/>" "<svg/>"
    (SVGNode.mk "svg" "" [] []) rfl rfl rfl (by decide) rfl rfl rfl rfl rfl rfl rfl
  exact ⟨rfl, rfl, rfl, rfl, k.1, k.2.1, k.2.2.2.1⟩

/-- C8.  The error classifier maps a failure to UNSUPPORTED exactly when
its message is the string "Browser does not support SVG"; a failure with
any other message commits the terminal status FAILED. -/
theorem C8_error_classifier (c : Nat) (m : String) (s : Sys)
    (hact : (s.insts c).isActive = true) :
    (((handleError c m s).insts c).status = STATUS.UNSUPPORTED ↔ m = "Browser does not support SVG")
    ∧ (m ≠ "Browser does not support SVG" →
        ((handleError c m s).insts c).status = STATUS.FAILED) := by
  have h := handleError_status_active c m s hact
  by_cases hm : m = "Browser does not support SVG"
  · rw [h, if_pos hm]
    exact ⟨⟨fun _ => hm, fun _ => rfl⟩, fun hne => absurd hm hne⟩
  · rw [h, if_neg hm]
    exact ⟨⟨fun hq => absurd hq (by decide), fun hq => absurd hq hm⟩, fun _ => rfl⟩

/-- Witness for C8: "Missing src" classifies as FAILED, the capability
message as UNSUPPORTED. -/
theorem C8_error_classifier_witness :
    (sysActive.insts 0).isActive = true
    ∧ ((handleError 0 "Missing src" sysActive).insts 0).status = STATUS.FAILED
    ∧ ((handleError 0 "Browser does not support SVG" sysActive).insts 0).status
        = STATUS.UNSUPPORTED := by
  refine ⟨rfl, ?_, ?_⟩
  · exact (C8_error_classifier 0 "Missing src" sysActive rfl).2 (by decide)
  · exact (C8_error_classifier 0 "Browser does not support SVG" sysActive rfl).1.mpr rfl

/-- C9.  Once a consumer's active flag is false, no asynchronous completion
— content delivery, error handling, a fetch's success completion with its
cache-queue drain, or any fetch completion — mutates that consumer's state
again, while the cache entry update and the fan-out to the other waiters
proceed unaffected. -/
theorem C9_teardown_blocks_writes (env : Env) (c : Nat) (s : Sys)
    (h : (s.insts c).isActive = false) :
    (∀ t, (handleLoad env c t s).insts c = s.insts c)
    ∧ (∀ m, (handleError c m s).insts c = s.insts c)
    ∧ (∀ r t, (fetchThen2 env r t s).insts c = s.insts c)
    ∧ (∀ r resp m, (fetchComplete env r resp m s).insts c = s.insts c)
    ∧ (∀ r t e, (env.props r).cacheRequests = true →
        lookupStore s.cacheStore (env.props r).src = some e →
        lookupStore (fetchThen2 env r t s).cacheStore (env.props r).src
          = some { content := t, queue := [], status := STATUS.LOADED }
        ∧ (fetchThen2 env r t s).calls = s.calls ++ [(r, t)] ++ e.queue.map (fun w => (w, t))) := by
  refine ⟨fun t => handleLoad_insts_inactive env c c t s h,
    fun m => handleError_insts_pres c c m s h,
    fun r t => fetchThen2_insts_inactive env r t s c h,
    fun r resp m => ?_,
    fun r t e hc hl => ⟨(fetchThen2_spec env r t s e hc hl).1, (fetchThen2_spec env r t s e hc hl).2.1⟩⟩
  unfold fetchComplete
  cases hout : fetchOutcome resp m with
  | ok t2 => exact fetchThen2_insts_inactive env r t2 s c h
  | error m2 =>
    show (fetchCatch env r m2 s).insts c = s.insts c
    unfold fetchCatch
    dsimp only
    split
    · exact handleError_insts_pres r c m2 _ h
    · exact handleError_insts_pres r c m2 s h

/-- Witness for C9: with consumer 0 torn down mid-flight, neither a direct
delivery nor the success completion touches its state. -/
theorem C9_teardown_blocks_writes_witness :
    (sysInactive0.insts 0).isActive = false
    ∧ (handleLoad envA 0 "<svg/>" sysInactive0).insts 0 = sysInactive0.insts 0
    ∧ (fetchThen2 envA 1 "<svg/>" sysInactive0).insts 0 = sysInactive0.insts 0 := by
  have k := C9_teardown_blocks_writes envA 0 sysInactive0 rfl
  exact ⟨rfl, k.1 "<svg/>", k.2.2.1 1 "<svg/>"⟩

/-- C10.  A well-formed SVG data URI whose payload decodes to the empty
string is not delivered as inline loaded content: `load` falls through and
issues a network request for the source string (creating the LOADING cache
entry when caching is on), and no content callback runs. -/
theorem C10_empty_payload_fetches (env : Env) (c : Nat) (s : Sys) (b64 : Bool) (payload : String)
    (hact : (s.insts c).isActive = true)
    (hm : matchDataURI (env.props c).src = some (b64, payload))
    (hdec : (if b64 then atob payload else decodeURIComponent payload) = "")
    (hmiss : (if (env.props c).cacheRequests then lookupStore s.cacheStore (env.props c).src else none) = none) :
    (load env c s).fetchLog = s.fetchLog ++ [(env.props c).src]
    ∧ (load env c s).calls = s.calls
    ∧ ((env.props c).cacheRequests = true →
        lookupStore (load env c s).cacheStore (env.props c).src
          = some { content := "", queue := [], status := STATUS.LOADING }) := by
  unfold load loadCb request
  dsimp only [setInst]
  rw [if_pos hact]
  rw [hmiss, hm]
  dsimp only
  rw [hdec]
  rw [if_neg (by simp)]
  by_cases hc : (env.props c).cacheRequests
  · simp [hc, lookup_updateStore_self]
  · simp [hc]

/-- Witness for C10 at the empty-payload data URI. -/
theorem C10_empty_payload_fetches_witness :
    (sysActive.insts 0).isActive = true
    ∧ matchDataURI "data:image/svg+xml," = some (false, "")
    ∧ decodeURIComponent "" = ""
    ∧ (load envEmptyDataURI 0 sysActive).fetchLog = ["data:image/svg+xml,"]
    ∧ (load envEmptyDataURI 0 sysActive).calls = [] := by
  have k := C10_empty_payload_fetches envEmptyDataURI 0 sysActive false "" rfl rfl rfl rfl
  exact ⟨rfl, rfl, rfl, k.1, k.2.1⟩

end InlineSVG
